import Mathlib

/-!
Shallow embedding of `pwsync/main.py` (the entry point of the `whynot`
password-synchronisation program).

Modelling conventions:

* Python strings become `String`; `Optional[str]` becomes `Option String`.
* `str.split(",")` and `str.lower()` are modelled by the character-list
  functions `pySplit` and `pyLower` below, which follow Python semantics
  (`"".split(",") == [""]`, empty pieces kept, ASCII lowering).
* The ambient process state (`os.path.exists`, `getpass.getpass`) is a
  `World` record of pure functions; environment variables read through
  `os.getenv` are an `Env` record.
* Side effects relevant to the claims (reading the `PWS_FROM`/`PWS_TO`
  environment variables, building the query configuration, calling
  `_open_password_db`, prompting for a password, constructing a dataset,
  running `syncer.sync()`, and invoking the console/GUI apply driver) are
  recorded as an ordered `Event` trace; `main` returns the trace produced
  up to the point it terminates, plus how it terminated (`RunResult`).
* The imported modules `common.py`, `dataset.py`, `sync.py`,
  `bw_cli_wrapper.py`, `kp_db_cli.py`, `console.py` and `gui.py` are not
  part of the visible sources.  Their constructors are modelled as records
  of the arguments `main.py` passes them, `syncer.sync()` and the apply
  drivers as trace events, and the `PwsQueryInfo` constructor's validation
  is modelled from the spec (see `mkPwsQueryInfo`).
* Logging setup (`basicConfig`, `FileHandler`, log level) is bootstrap
  state outside every claim and is not modelled.
-/

namespace Pwsync

/-- Lowercasing a string character by character, following Python's
`str.lower()` on the ASCII range. -/
def pyLower (s : String) : String := String.mk (s.data.map Char.toLower)

/-- Helper for `pySplit`: walk the characters, cutting at each separator;
`acc` holds the (reversed) characters of the current piece. -/
def splitCharsOn (sep : Char) : List Char → List Char → List String
  | [], acc => [String.mk acc.reverse]
  | c :: rest, acc =>
    if c = sep then String.mk acc.reverse :: splitCharsOn sep rest []
    else splitCharsOn sep rest (c :: acc)

/-- Splitting on a one-character separator, following Python's
`str.split(sep)`: empty pieces are kept and `"".split(sep) == [""]`. -/
def pySplit (s : String) (sep : Char) : List String := splitCharsOn sep s.data []

/-- Mirror of `PwsQueryInfo` from `common.py`: the ordered identity
field-name list, the key separator, and the flagged-only policy
(`sync` is true when only flagged entries are synchronised). -/
structure PwsQueryInfo where
  ids : List String
  idSep : String
  sync : Bool
deriving Repr, DecidableEq

/-- Which apply driver `main` invokes: `console_sync` or `gui_sync`. -/
inductive Driver
  | console
  | gui
deriving Repr, DecidableEq

/-- Observable steps of one run of `main.py`, in program order. -/
inductive Event
  /-- One of the `getenv("PWS_FROM")` / `getenv("PWS_TO")` fallback reads
  in `_parse_command_line` (lines 99-102) was executed. -/
  | readStoreEnvVar (varName : String)
  /-- The `PwsQueryInfo` value was constructed in `main` (line 170). -/
  | buildQueryInfo (queryInfo : PwsQueryInfo)
  /-- A call to `_open_password_db` was entered with this position
  (`"from"` or `"to"`), query configuration and store name. -/
  | openDb (position : String) (queryInfo : PwsQueryInfo) (name : String)
  /-- The `getpass` prompt in `_create_keepass_dataset` (line 137) ran. -/
  | promptPassword (name : String)
  /-- A `PasswordDataset` was constructed with this name and query
  configuration. -/
  | createDataset (name : String) (queryInfo : PwsQueryInfo)
  /-- The call `syncer.sync()` (line 175) ran to completion. -/
  | syncRun
  /-- An apply driver (`console_sync` or `gui_sync`, line 180/182) was
  invoked with the query configuration and the dry-run flag. -/
  | applyDriver (driver : Driver) (queryInfo : PwsQueryInfo) (dryRun : Bool)
deriving Repr, DecidableEq

/-- Command line as handed to `argparse`: for each option, `none` means
the option was not given.  `--dry-run`, `--sync-all` and `--gui` are
`store_true` flags, so a `Bool` records whether they were given. -/
structure CmdLine where
  fromOpt : Option String
  toOpt : Option String
  dryRun : Bool
  idOpt : Option String
  idSepOpt : Option String
  syncAll : Bool
  fromUsernameOpt : Option String
  fromPasswordOpt : Option String
  toUsernameOpt : Option String
  toPasswordOpt : Option String
  gui : Bool
deriving Repr, DecidableEq

/-- Values of the environment variables `main.py` reads through
`getenv`; `none` means the variable is unset. -/
structure Env where
  pwsFrom : Option String
  pwsTo : Option String
  pwsFromUsername : Option String
  pwsFromPassword : Option String
  pwsToUsername : Option String
  pwsToPassword : Option String
  bwSession : Option String
deriving Repr, DecidableEq

/-- Ambient process state: which paths exist (`os.path.exists`) and what
`getpass` would return when prompting for the named database. -/
structure World where
  fileExists : String → Bool
  getpass : String → String

/-- Mirror of the `argparse` namespace returned by `_parse_command_line`
after the mutations on lines 99-113, plus the derived `sync` attribute
(line 104). -/
structure Args where
  «from» : Option String
  «to» : Option String
  dryRun : Bool
  id : String
  idSep : String
  syncAll : Bool
  sync : Bool
  fromUsername : Option String
  fromPassword : Option String
  toUsername : Option String
  toPassword : Option String
  gui : Bool
deriving Repr, DecidableEq

/-- Mirror of the credential fallbacks on lines 106-113: keep the
command-line value when it was given, otherwise read the environment. -/
def credResolve (optionValue envValue : Option String) : Option String :=
  match optionValue with
  | none => envValue
  | some v => some v

/-- Mirror of the store-name fallbacks on lines 99-102: when the parsed
value is `None`, read the environment variable (recorded as an event). -/
def storeNameFallback (value envValue : Option String) (varName : String) :
    Option String × List Event :=
  match value with
  | none => (envValue, [.readStoreEnvVar varName])
  | some s => (some s, [])

/-- Mirror of `_parse_command_line` (lines 24-116).  `argparse` exits
with a usage error when a `required=True` option (`--from`, `--to`) is
missing, modelled as `none`; on success the parsed namespace carries the
given values, with `--id` defaulting to `"folder,title"` and `--id-sep`
to `":"`.  Lines 99-113 then apply the environment fallbacks and
line 104 derives `sync` from `--sync-all`. -/
def parseCommandLine (cmd : CmdLine) (env : Env) : Option (Args × List Event) :=
  match cmd.fromOpt, cmd.toOpt with
  | some fromValue, some toValue =>
    let fromFb := storeNameFallback (some fromValue) env.pwsFrom "PWS_FROM"
    let toFb := storeNameFallback (some toValue) env.pwsTo "PWS_TO"
    some ({ «from» := fromFb.1
            «to» := toFb.1
            dryRun := cmd.dryRun
            id := cmd.idOpt.getD "folder,title"
            idSep := cmd.idSepOpt.getD ":"
            syncAll := cmd.syncAll
            sync := !cmd.syncAll
            fromUsername := credResolve cmd.fromUsernameOpt env.pwsFromUsername
            fromPassword := credResolve cmd.fromPasswordOpt env.pwsFromPassword
            toUsername := credResolve cmd.toUsernameOpt env.pwsToUsername
            toPassword := credResolve cmd.toPasswordOpt env.pwsToPassword
            gui := cmd.gui },
          fromFb.2 ++ toFb.2)
  | _, _ => none

/-- Record of the arguments `_create_bitwarden_dataset` passes to the
`BitwardenClientWrapper` constructor (line 126); the wrapper itself lives
outside the visible sources. -/
structure BitwardenClientWrapper where
  session : Option String
  username : Option String
  password : Option String
  ids : List String
deriving Repr, DecidableEq

/-- Record of the arguments `_create_keepass_dataset` passes to the
`KeepassDatabaseClient` constructor (line 138).  The password field is an
`Option` because Python is dynamically typed, so the call site could in
principle pass `None`; the field records exactly what was passed. -/
structure KeepassDatabaseClient where
  name : String
  password : Option String
deriving Repr, DecidableEq

/-- The backend client a dataset was constructed around. -/
inductive PwsClient
  | bitwarden (client : BitwardenClientWrapper)
  | keepass (client : KeepassDatabaseClient)
deriving Repr, DecidableEq

/-- Record of the arguments passed to the `PasswordDataset` constructor
(lines 127 and 139); `dataset.py` is outside the visible sources. -/
structure PasswordDataset where
  name : String
  queryInfo : PwsQueryInfo
  client : PwsClient
deriving Repr, DecidableEq

/-- Mirror of the `PwsNotFound` exception raised on line 154. -/
structure PwsNotFound where
  name : String
deriving Repr, DecidableEq

/-- Error raised by the modelled `PwsQueryInfo` constructor. -/
inductive ConfigurationError
  | invalidFieldList (ids : List String)
deriving Repr, DecidableEq

/-- Modelled from the spec: validity of the identity field-name list.
The spec's error taxonomy calls an empty or invalid field list a
`ConfigurationError`; the list is modelled as invalid when it is empty or
one of its field names is the empty string. -/
def validIdFieldList (ids : List String) : Bool :=
  !ids.isEmpty && ids.all (fun fieldName => fieldName != "")

/-- Modelled from the spec: the `PwsQueryInfo` constructor called on
line 170.  `common.py` is outside the visible sources; per the spec's
error taxonomy, an empty/invalid field list is a `ConfigurationError`,
fatal before any load. -/
def mkPwsQueryInfo (ids : List String) (idSep : String) (sync : Bool) :
    Except ConfigurationError PwsQueryInfo :=
  if validIdFieldList ids then .ok ⟨ids, idSep, sync⟩
  else .error (.invalidFieldList ids)

/-- Mirror of `_create_bitwarden_dataset` (lines 119-128): read
`BW_SESSION`, construct the client wrapper with session, username,
password and the configured identity fields, and wrap it in a dataset. -/
def createBitwardenDataset (env : Env) (name : String)
    (username password : Option String) (queryInfo : PwsQueryInfo) :
    PasswordDataset × List Event :=
  let session := env.bwSession
  let client : BitwardenClientWrapper := ⟨session, username, password, queryInfo.ids⟩
  (⟨name, queryInfo, .bitwarden client⟩, [.createDataset name queryInfo])

/-- Mirror of `_create_keepass_dataset` (lines 131-140): when no password
was resolved, prompt for one with `getpass` first, then construct the
`KeepassDatabaseClient` and wrap it in a dataset. -/
def createKeepassDataset (w : World) (name : String) (password : Option String)
    (queryInfo : PwsQueryInfo) : PasswordDataset × List Event :=
  match password with
  | none =>
    let prompted := w.getpass name
    (⟨name, queryInfo, .keepass ⟨name, some prompted⟩⟩,
      [.promptPassword name, .createDataset name queryInfo])
  | some pw =>
    (⟨name, queryInfo, .keepass ⟨name, some pw⟩⟩,
      [.createDataset name queryInfo])

/-- Mirror of `_open_password_db` (lines 143-154): the Bitwarden keyword
(case-insensitive `"bitwarden"` or `"bw"`) selects the Bitwarden client;
otherwise an existing path selects the Keepass client; otherwise
`PwsNotFound` is raised. -/
def openPasswordDb (w : World) (env : Env) (queryInfo : PwsQueryInfo)
    (position name : String) (username password : Option String) :
    Except PwsNotFound PasswordDataset × List Event :=
  if (["bitwarden", "bw"].contains (pyLower name)) then
    let created := createBitwardenDataset env (position ++ pyLower name) username password queryInfo
    (.ok created.1, .openDb position queryInfo name :: created.2)
  else if w.fileExists name then
    let created := createKeepassDataset w name password queryInfo
    (.ok created.1, .openDb position queryInfo name :: created.2)
  else
    (.error ⟨name⟩, [.openDb position queryInfo name])

/-- How one run of `main` terminated. -/
inductive RunResult
  /-- The `argparse` layer rejected the command line (a `required=True`
  option was missing) and exited before `_parse_command_line` returned. -/
  | usageError
  /-- The `PwsQueryInfo` construction on line 170 raised a
  `ConfigurationError` (spec-modelled, see `mkPwsQueryInfo`). -/
  | configurationError
  /-- An `_open_password_db` call raised `PwsNotFound` and the exception
  escaped `main`. -/
  | notFound (name : String)
  /-- A `None` store name reached `name.lower()` inside
  `_open_password_db`, where Python would raise `AttributeError`
  (provably unreachable after a successful parse). -/
  | noneStoreName
  /-- The run reached the apply driver call on line 180/182. -/
  | completed
deriving Repr, DecidableEq

/-- Mirror of `main` (lines 157-183): parse the command line, build the
query configuration once, open the `from` then the `to` dataset with it,
run `syncer.sync()`, and invoke the apply driver chosen by `--gui` with
the dry-run flag.  Returns the event trace up to termination and the
run's outcome. -/
def main (w : World) (cmd : CmdLine) (env : Env) : List Event × RunResult :=
  match parseCommandLine cmd env with
  | none => ([], .usageError)
  | some (args, parseEvs) =>
    match mkPwsQueryInfo (pySplit args.id ',') args.idSep args.sync with
    | .error _ => (parseEvs, .configurationError)
    | .ok queryInfo =>
      match args.«from» with
      | none => (parseEvs ++ [.buildQueryInfo queryInfo], .noneStoreName)
      | some fromName =>
        match openPasswordDb w env queryInfo "from" fromName args.fromUsername args.fromPassword with
        | (.error notFound, fromEvs) =>
          (parseEvs ++ [.buildQueryInfo queryInfo] ++ fromEvs, .notFound notFound.name)
        | (.ok _fromDataset, fromEvs) =>
          match args.«to» with
          | none =>
            (parseEvs ++ [.buildQueryInfo queryInfo] ++ fromEvs, .noneStoreName)
          | some toName =>
            match openPasswordDb w env queryInfo "to" toName args.toUsername args.toPassword with
            | (.error notFound, toEvs) =>
              (parseEvs ++ [.buildQueryInfo queryInfo] ++ fromEvs ++ toEvs,
                .notFound notFound.name)
            | (.ok _toDataset, toEvs) =>
              let driver : Driver := if args.gui then .gui else .console
              (parseEvs ++ [.buildQueryInfo queryInfo] ++ fromEvs ++ toEvs
                  ++ [.syncRun, .applyDriver driver queryInfo args.dryRun],
                .completed)

/-- Phase of an event in the data flow: 0 command-line resolution,
1 query-configuration construction, 2 dataset opening/loading, 3 sync,
4 apply driver. -/
def eventPhase : Event → Nat
  | .readStoreEnvVar _ => 0
  | .buildQueryInfo _ => 1
  | .openDb _ _ _ => 2
  | .promptPassword _ => 2
  | .createDataset _ _ => 2
  | .syncRun => 3
  | .applyDriver _ _ _ => 4

/-- Recogniser for the query-configuration construction event. -/
def isBuildQueryInfoEvent : Event → Bool
  | .buildQueryInfo _ => true
  | _ => false

/-- Recogniser for the apply-driver invocation event. -/
def isApplyDriverEvent : Event → Bool
  | .applyDriver _ _ _ => true
  | _ => false

/-- Trace shape of one successful `_open_password_db` call: it is entered
at the given position with the given query configuration, constructs a
dataset with that same configuration, and stays within the load phase. -/
def adapterEventsFor (queryInfo : PwsQueryInfo) (position : String)
    (events : List Event) : Prop :=
  (∃ name, events.head? = some (.openDb position queryInfo name)) ∧
  (∃ name, Event.createDataset name queryInfo ∈ events) ∧
  ∀ e ∈ events, eventPhase e = 2

/-- Sample process state: no path exists and prompting yields a fixed
string. -/
def sampleWorld : World := ⟨fun _ => false, fun _ => "secret"⟩

/-- Sample process state in which every path exists. -/
def sampleWorldAllFiles : World := ⟨fun _ => true, fun _ => "secret"⟩

/-- Sample command line: `--from bw --to bitwarden --dry-run`. -/
def sampleCmd : CmdLine :=
  ⟨some "bw", some "bitwarden", true, none, none, false, none, none, none, none, false⟩

/-- Sample command line whose `--from` names a Keepass file. -/
def sampleCmdKeepass : CmdLine :=
  ⟨some "store.kdbx", some "bitwarden", false, none, none, false, none, none, none, none, false⟩

/-- Sample command line with an invalid (empty) `--id` value. -/
def sampleCmdBadId : CmdLine :=
  ⟨some "bw", some "bitwarden", false, some "", none, false, none, none, none, none, false⟩

/-- Sample environment with every variable unset. -/
def sampleEnv : Env := ⟨none, none, none, none, none, none, none⟩

/-- Inversion for the modelled `PwsQueryInfo` constructor: a successful
construction returns exactly the given fields. -/
theorem mkPwsQueryInfo_ok {ids : List String} {idSep : String} {sync : Bool}
    {qi : PwsQueryInfo} (h : mkPwsQueryInfo ids idSep sync = .ok qi) :
    qi = ⟨ids, idSep, sync⟩ := by
  unfold mkPwsQueryInfo at h
  split at h
  · cases h; rfl
  · cases h

/-- Inversion for `_parse_command_line`: a successful parse means both
required store options were given, the fallback reads produced no event,
and the resulting namespace is determined by the command line and the
credential environment variables. -/
theorem parseCommandLine_some {cmd : CmdLine} {env : Env} {args : Args}
    {evs : List Event} (h : parseCommandLine cmd env = some (args, evs)) :
    ∃ f t, cmd.fromOpt = some f ∧ cmd.toOpt = some t ∧ evs = [] ∧
      args = { «from» := some f
               «to» := some t
               dryRun := cmd.dryRun
               id := cmd.idOpt.getD "folder,title"
               idSep := cmd.idSepOpt.getD ":"
               syncAll := cmd.syncAll
               sync := !cmd.syncAll
               fromUsername := credResolve cmd.fromUsernameOpt env.pwsFromUsername
               fromPassword := credResolve cmd.fromPasswordOpt env.pwsFromPassword
               toUsername := credResolve cmd.toUsernameOpt env.pwsToUsername
               toPassword := credResolve cmd.toPasswordOpt env.pwsToPassword
               gui := cmd.gui } := by
  cases hf : cmd.fromOpt with
  | none => simp [parseCommandLine, hf] at h
  | some f =>
    cases ht : cmd.toOpt with
    | none => simp [parseCommandLine, hf, ht] at h
    | some t =>
      refine ⟨f, t, rfl, rfl, ?_, ?_⟩ <;>
        · simp [parseCommandLine, hf, ht, storeNameFallback] at h
          tauto

/-- Every event recorded by `_open_password_db` belongs to the
dataset-opening phase. -/
theorem openPasswordDb_events_phase (w : World) (env : Env)
    (queryInfo : PwsQueryInfo) (position name : String)
    (username password : Option String) :
    ∀ e ∈ (openPasswordDb w env queryInfo position name username password).2,
      eventPhase e = 2 := by
  by_cases hbw : pyLower name = "bitwarden" ∨ pyLower name = "bw"
  · simp [openPasswordDb, hbw, createBitwardenDataset, eventPhase,
      List.forall_mem_cons]
  · by_cases hex : w.fileExists name = true
    · cases password <;>
        simp [openPasswordDb, hbw, hex, createKeepassDataset, eventPhase,
          List.forall_mem_cons]
    · simp [openPasswordDb, hbw, hex, eventPhase, List.forall_mem_cons]

/-- Every `openDb` event recorded by `_open_password_db` carries exactly
the position, query configuration and store name of that call. -/
theorem openPasswordDb_openDb_inv (w : World) (env : Env)
    (queryInfo : PwsQueryInfo) (position name : String)
    (username password : Option String) :
    ∀ position' queryInfo' name',
      Event.openDb position' queryInfo' name'
          ∈ (openPasswordDb w env queryInfo position name username password).2 →
      position' = position ∧ queryInfo' = queryInfo ∧ name' = name := by
  by_cases hbw : pyLower name = "bitwarden" ∨ pyLower name = "bw"
  · simp [openPasswordDb, hbw, createBitwardenDataset]
  · by_cases hex : w.fileExists name = true
    · cases password <;> simp [openPasswordDb, hbw, hex, createKeepassDataset]
    · simp [openPasswordDb, hbw, hex]

/-- Every `createDataset` event recorded by `_open_password_db` carries
the query configuration of that call. -/
theorem openPasswordDb_createDataset_inv (w : World) (env : Env)
    (queryInfo : PwsQueryInfo) (position name : String)
    (username password : Option String) :
    ∀ name' queryInfo',
      Event.createDataset name' queryInfo'
          ∈ (openPasswordDb w env queryInfo position name username password).2 →
      queryInfo' = queryInfo := by
  by_cases hbw : pyLower name = "bitwarden" ∨ pyLower name = "bw"
  · simp [openPasswordDb, hbw, createBitwardenDataset]
  · by_cases hex : w.fileExists name = true
    · cases password <;> simp [openPasswordDb, hbw, hex, createKeepassDataset]
    · simp [openPasswordDb, hbw, hex]

/-- The event trace of a successful `_open_password_db` call has the
shape required of one adapter instantiation. -/
theorem openPasswordDb_ok_adapterEvents (w : World) (env : Env)
    (queryInfo : PwsQueryInfo) (position name : String)
    (username password : Option String) (ds : PasswordDataset)
    (evs : List Event)
    (h : openPasswordDb w env queryInfo position name username password = (.ok ds, evs)) :
    adapterEventsFor queryInfo position evs := by
  have hphase := openPasswordDb_events_phase w env queryInfo position name username password
  rw [h] at hphase
  by_cases hbw : pyLower name = "bitwarden" ∨ pyLower name = "bw"
  · simp [openPasswordDb, hbw, createBitwardenDataset] at h
    obtain ⟨-, h2⟩ := h
    subst h2
    exact ⟨⟨name, rfl⟩, ⟨position ++ pyLower name, by simp⟩, hphase⟩
  · by_cases hex : w.fileExists name = true
    · cases password with
      | none =>
        simp [openPasswordDb, hbw, hex, createKeepassDataset] at h
        obtain ⟨-, h2⟩ := h
        subst h2
        exact ⟨⟨name, rfl⟩, ⟨name, by simp⟩, hphase⟩
      | some pw =>
        simp [openPasswordDb, hbw, hex, createKeepassDataset] at h
        obtain ⟨-, h2⟩ := h
        subst h2
        exact ⟨⟨name, rfl⟩, ⟨name, by simp⟩, hphase⟩
    · simp [openPasswordDb, hbw, hex] at h

/-- Case analysis of `main`: its five reachable terminations together
with the exact trace each produces. -/
theorem main_cases (w : World) (cmd : CmdLine) (env : Env) :
    (parseCommandLine cmd env = none ∧
      (main w cmd env).1 = [] ∧ (main w cmd env).2 = .usageError) ∨
    (∃ args e,
      parseCommandLine cmd env = some (args, []) ∧
      mkPwsQueryInfo (pySplit args.id ',') args.idSep args.sync = .error e ∧
      (main w cmd env).1 = [] ∧ (main w cmd env).2 = .configurationError) ∨
    (∃ args queryInfo fromName nf fromEvs,
      parseCommandLine cmd env = some (args, []) ∧
      mkPwsQueryInfo (pySplit args.id ',') args.idSep args.sync = .ok queryInfo ∧
      args.«from» = some fromName ∧
      openPasswordDb w env queryInfo "from" fromName args.fromUsername args.fromPassword
        = (.error nf, fromEvs) ∧
      (main w cmd env).1 = .buildQueryInfo queryInfo :: fromEvs ∧
      (main w cmd env).2 = .notFound nf.name) ∨
    (∃ args queryInfo fromName toName dsF nf fromEvs toEvs,
      parseCommandLine cmd env = some (args, []) ∧
      mkPwsQueryInfo (pySplit args.id ',') args.idSep args.sync = .ok queryInfo ∧
      args.«from» = some fromName ∧ args.«to» = some toName ∧
      openPasswordDb w env queryInfo "from" fromName args.fromUsername args.fromPassword
        = (.ok dsF, fromEvs) ∧
      openPasswordDb w env queryInfo "to" toName args.toUsername args.toPassword
        = (.error nf, toEvs) ∧
      (main w cmd env).1 = .buildQueryInfo queryInfo :: (fromEvs ++ toEvs) ∧
      (main w cmd env).2 = .notFound nf.name) ∨
    (∃ args queryInfo fromName toName dsF dsT fromEvs toEvs,
      parseCommandLine cmd env = some (args, []) ∧
      mkPwsQueryInfo (pySplit args.id ',') args.idSep args.sync = .ok queryInfo ∧
      args.«from» = some fromName ∧ args.«to» = some toName ∧
      openPasswordDb w env queryInfo "from" fromName args.fromUsername args.fromPassword
        = (.ok dsF, fromEvs) ∧
      openPasswordDb w env queryInfo "to" toName args.toUsername args.toPassword
        = (.ok dsT, toEvs) ∧
      (main w cmd env).1 = .buildQueryInfo queryInfo :: (fromEvs ++ toEvs ++
          [.syncRun,
           .applyDriver (if args.gui then .gui else .console) queryInfo args.dryRun]) ∧
      (main w cmd env).2 = .completed) := by
  cases hp : parseCommandLine cmd env with
  | none => exact Or.inl ⟨rfl, by simp [main, hp], by simp [main, hp]⟩
  | some pair =>
    obtain ⟨args, evs⟩ := pair
    obtain ⟨f, t, hf, ht, hevs, hargs⟩ := parseCommandLine_some hp
    subst hevs
    cases hmk : mkPwsQueryInfo (pySplit args.id ',') args.idSep args.sync with
    | error e =>
      exact Or.inr (Or.inl ⟨args, e, rfl, hmk, by simp [main, hp, hmk],
        by simp [main, hp, hmk]⟩)
    | ok queryInfo =>
      have hfrom : args.«from» = some f := by rw [hargs]
      have hto : args.«to» = some t := by rw [hargs]
      cases hF : openPasswordDb w env queryInfo "from" f args.fromUsername args.fromPassword with
      | mk fromRes fromEvs =>
        cases fromRes with
        | error nf =>
          exact Or.inr (Or.inr (Or.inl ⟨args, queryInfo, f, nf, fromEvs, rfl, hmk,
            hfrom, hF, by simp [main, hp, hmk, hfrom, hF],
            by simp [main, hp, hmk, hfrom, hF]⟩))
        | ok dsF =>
          cases hT : openPasswordDb w env queryInfo "to" t args.toUsername args.toPassword with
          | mk toRes toEvs =>
            cases toRes with
            | error nf =>
              exact Or.inr (Or.inr (Or.inr (Or.inl ⟨args, queryInfo, f, t, dsF, nf,
                fromEvs, toEvs, rfl, hmk, hfrom, hto, hF, hT,
                by simp [main, hp, hmk, hfrom, hto, hF, hT],
                by simp [main, hp, hmk, hfrom, hto, hF, hT]⟩)))
            | ok dsT =>
              exact Or.inr (Or.inr (Or.inr (Or.inr ⟨args, queryInfo, f, t, dsF, dsT,
                fromEvs, toEvs, rfl, hmk, hfrom, hto, hF, hT,
                by simp [main, hp, hmk, hfrom, hto, hF, hT],
                by simp [main, hp, hmk, hfrom, hto, hF, hT]⟩)))

/-- Lists of events sharing one phase are pairwise phase-monotone. -/
theorem pairwise_le_of_phase_eq (events : List Event) (k : Nat)
    (h : ∀ e ∈ events, eventPhase e = k) :
    List.Pairwise (fun a b => eventPhase a ≤ eventPhase b) events := by
  induction events with
  | nil => exact List.Pairwise.nil
  | cons a rest ih =>
    refine List.Pairwise.cons (fun b hb => ?_)
      (ih fun e he => h e (List.mem_cons_of_mem _ he))
    rw [h a (List.mem_cons_self _ _), h b (List.mem_cons_of_mem _ hb)]

/-- In every run, the trace of `main` is ordered by data-flow phase:
command-line resolution, query-configuration construction, dataset
opening, sync, apply driver — in that order, never interleaved. -/
theorem main_phase_monotone (w : World) (cmd : CmdLine) (env : Env) :
    List.Pairwise (fun a b => eventPhase a ≤ eventPhase b) (main w cmd env).1 := by
  rcases main_cases w cmd env with ⟨-, hm, -⟩ | ⟨args, e, hp, hmk, hm, -⟩ |
    ⟨args, queryInfo, fromName, nf, fromEvs, hp, hmk, hfrom, hF, hm, -⟩ |
    ⟨args, queryInfo, fromName, toName, dsF, nf, fromEvs, toEvs, hp, hmk, hfrom, hto, hF, hT, hm, -⟩ |
    ⟨args, queryInfo, fromName, toName, dsF, dsT, fromEvs, toEvs, hp, hmk, hfrom, hto, hF, hT, hm, -⟩ <;>
    rw [hm]
  · exact List.Pairwise.nil
  · exact List.Pairwise.nil
  · have hph := openPasswordDb_events_phase w env queryInfo "from" fromName
      args.fromUsername args.fromPassword
    rw [hF] at hph
    refine List.Pairwise.cons (fun b hb => ?_) (pairwise_le_of_phase_eq _ 2 hph)
    rw [hph b hb]
    simp only [eventPhase]
    omega
  · have hphF := openPasswordDb_events_phase w env queryInfo "from" fromName
      args.fromUsername args.fromPassword
    rw [hF] at hphF
    have hphT := openPasswordDb_events_phase w env queryInfo "to" toName
      args.toUsername args.toPassword
    rw [hT] at hphT
    have hph : ∀ e ∈ fromEvs ++ toEvs, eventPhase e = 2 := by
      intro e he
      rcases List.mem_append.mp he with h | h
      · exact hphF e h
      · exact hphT e h
    refine List.Pairwise.cons (fun b hb => ?_) (pairwise_le_of_phase_eq _ 2 hph)
    rw [hph b hb]
    simp only [eventPhase]
    omega
  · have hphF := openPasswordDb_events_phase w env queryInfo "from" fromName
      args.fromUsername args.fromPassword
    rw [hF] at hphF
    have hphT := openPasswordDb_events_phase w env queryInfo "to" toName
      args.toUsername args.toPassword
    rw [hT] at hphT
    have hph : ∀ e ∈ fromEvs ++ toEvs, eventPhase e = 2 := by
      intro e he
      rcases List.mem_append.mp he with h | h
      · exact hphF e h
      · exact hphT e h
    have htail : List.Pairwise (fun a b => eventPhase a ≤ eventPhase b)
        (fromEvs ++ toEvs ++
          [.syncRun,
           .applyDriver (if args.gui then .gui else .console) queryInfo args.dryRun]) := by
      refine List.pairwise_append.mpr ⟨pairwise_le_of_phase_eq _ 2 hph, ?_, ?_⟩
      · refine List.Pairwise.cons (fun b hb => ?_) (List.pairwise_singleton _ _)
        simp only [List.mem_singleton] at hb
        subst hb
        simp only [eventPhase]
        omega
      · intro a ha b hb
        rw [hph a ha]
        rcases List.mem_cons.mp hb with rfl | hb
        · simp only [eventPhase]
          omega
        · simp only [List.mem_singleton] at hb
          subst hb
          simp only [eventPhase]
          omega
    refine List.Pairwise.cons (fun b hb => ?_) htail
    rcases List.mem_append.mp hb with h | h
    · rw [hph b h]
      simp only [eventPhase]
      omega
    · rcases List.mem_cons.mp h with rfl | h
      · simp only [eventPhase]
        omega
      · simp only [List.mem_singleton] at h
        subst h
        simp only [eventPhase]
        omega

/-- Events of the dataset-opening phase are not query-configuration
build events. -/
theorem phase_two_not_build {e : Event} (h : eventPhase e = 2) :
    isBuildQueryInfoEvent e = false := by
  cases e <;> simp_all [eventPhase, isBuildQueryInfoEvent]

/-- Every event in a run's trace belongs to phase 1 (query-configuration
construction) or later; in particular the command-line phase's
environment-variable fallback reads never appear. -/
theorem main_trace_phase_ge_one (w : World) (cmd : CmdLine) (env : Env) :
    ∀ e ∈ (main w cmd env).1, 1 ≤ eventPhase e := by
  intro e he
  rcases main_cases w cmd env with ⟨-, hm, -⟩ | ⟨args, e', hp, hmk, hm, -⟩ |
    ⟨args, queryInfo, fromName, nf, fromEvs, hp, hmk, hfrom, hF, hm, -⟩ |
    ⟨args, queryInfo, fromName, toName, dsF, nf, fromEvs, toEvs, hp, hmk, hfrom, hto, hF, hT, hm, -⟩ |
    ⟨args, queryInfo, fromName, toName, dsF, dsT, fromEvs, toEvs, hp, hmk, hfrom, hto, hF, hT, hm, -⟩ <;>
    rw [hm] at he
  · exact absurd he (List.not_mem_nil _)
  · exact absurd he (List.not_mem_nil _)
  · rcases List.mem_cons.mp he with rfl | h
    · simp [eventPhase]
    · have hph := openPasswordDb_events_phase w env queryInfo "from" fromName
        args.fromUsername args.fromPassword
      rw [hF] at hph
      have := hph e h
      omega
  · rcases List.mem_cons.mp he with rfl | h
    · simp [eventPhase]
    · have hphF := openPasswordDb_events_phase w env queryInfo "from" fromName
        args.fromUsername args.fromPassword
      rw [hF] at hphF
      have hphT := openPasswordDb_events_phase w env queryInfo "to" toName
        args.toUsername args.toPassword
      rw [hT] at hphT
      rcases List.mem_append.mp h with h | h
      · have := hphF e h
        omega
      · have := hphT e h
        omega
  · rcases List.mem_cons.mp he with rfl | h
    · simp [eventPhase]
    · have hphF := openPasswordDb_events_phase w env queryInfo "from" fromName
        args.fromUsername args.fromPassword
      rw [hF] at hphF
      have hphT := openPasswordDb_events_phase w env queryInfo "to" toName
        args.toUsername args.toPassword
      rw [hT] at hphT
      rcases List.mem_append.mp h with h | h
      · rcases List.mem_append.mp h with h | h
        · have := hphF e h
          omega
        · have := hphT e h
          omega
      · rcases List.mem_cons.mp h with rfl | h
        · simp [eventPhase]
        · simp only [List.mem_singleton] at h
          subst h
          simp [eventPhase]

/-- When a run ends with `PwsNotFound`, every event of its trace belongs
to the load phase at the latest: the sync step and the apply driver were
never reached. -/
theorem main_notFound_phase_le_two (w : World) (cmd : CmdLine) (env : Env)
    (name : String) (h : (main w cmd env).2 = RunResult.notFound name) :
    ∀ e ∈ (main w cmd env).1, eventPhase e ≤ 2 := by
  intro e he
  rcases main_cases w cmd env with ⟨-, hm, hr⟩ | ⟨args, e', hp, hmk, hm, hr⟩ |
    ⟨args, queryInfo, fromName, nf, fromEvs, hp, hmk, hfrom, hF, hm, hr⟩ |
    ⟨args, queryInfo, fromName, toName, dsF, nf, fromEvs, toEvs, hp, hmk, hfrom, hto, hF, hT, hm, hr⟩ |
    ⟨args, queryInfo, fromName, toName, dsF, dsT, fromEvs, toEvs, hp, hmk, hfrom, hto, hF, hT, hm, hr⟩
  · rw [hr] at h
    exact RunResult.noConfusion h
  · rw [hr] at h
    exact RunResult.noConfusion h
  · rw [hm] at he
    rcases List.mem_cons.mp he with rfl | hmem
    · simp [eventPhase]
    · have hph := openPasswordDb_events_phase w env queryInfo "from" fromName
        args.fromUsername args.fromPassword
      rw [hF] at hph
      have := hph e hmem
      omega
  · rw [hm] at he
    rcases List.mem_cons.mp he with rfl | hmem
    · simp [eventPhase]
    · have hphF := openPasswordDb_events_phase w env queryInfo "from" fromName
        args.fromUsername args.fromPassword
      rw [hF] at hphF
      have hphT := openPasswordDb_events_phase w env queryInfo "to" toName
        args.toUsername args.toPassword
      rw [hT] at hphT
      rcases List.mem_append.mp hmem with hmem | hmem
      · have := hphF e hmem
        omega
      · have := hphT e hmem
        omega
  · rw [hr] at h
    exact RunResult.noConfusion h

/-- Inversion for the build event: any query configuration recorded as
built in a run's trace came from a successful `mkPwsQueryInfo` call on
the parsed arguments. -/
theorem main_build_inv (w : World) (cmd : CmdLine) (env : Env) :
    ∀ qi, Event.buildQueryInfo qi ∈ (main w cmd env).1 →
      ∃ args, parseCommandLine cmd env = some (args, []) ∧
        mkPwsQueryInfo (pySplit args.id ',') args.idSep args.sync = .ok qi := by
  intro qi hmem
  have hone := main_trace_phase_ge_one w cmd env
  rcases main_cases w cmd env with ⟨-, hm, -⟩ | ⟨args, e', hp, hmk, hm, -⟩ |
    ⟨args, queryInfo, fromName, nf, fromEvs, hp, hmk, hfrom, hF, hm, -⟩ |
    ⟨args, queryInfo, fromName, toName, dsF, nf, fromEvs, toEvs, hp, hmk, hfrom, hto, hF, hT, hm, -⟩ |
    ⟨args, queryInfo, fromName, toName, dsF, dsT, fromEvs, toEvs, hp, hmk, hfrom, hto, hF, hT, hm, -⟩ <;>
    rw [hm] at hmem
  · exact absurd hmem (List.not_mem_nil _)
  · exact absurd hmem (List.not_mem_nil _)
  · rcases List.mem_cons.mp hmem with hh | hh
    · injection hh with hh
      subst hh
      exact ⟨args, hp, hmk⟩
    · have hph := openPasswordDb_events_phase w env queryInfo "from" fromName
        args.fromUsername args.fromPassword
      rw [hF] at hph
      have := hph _ hh
      simp [eventPhase] at this
  · rcases List.mem_cons.mp hmem with hh | hh
    · injection hh with hh
      subst hh
      exact ⟨args, hp, hmk⟩
    · have hphF := openPasswordDb_events_phase w env queryInfo "from" fromName
        args.fromUsername args.fromPassword
      rw [hF] at hphF
      have hphT := openPasswordDb_events_phase w env queryInfo "to" toName
        args.toUsername args.toPassword
      rw [hT] at hphT
      rcases List.mem_append.mp hh with hh | hh
      · have := hphF _ hh
        simp [eventPhase] at this
      · have := hphT _ hh
        simp [eventPhase] at this
  · rcases List.mem_cons.mp hmem with hh | hh
    · injection hh with hh
      subst hh
      exact ⟨args, hp, hmk⟩
    · have hphF := openPasswordDb_events_phase w env queryInfo "from" fromName
        args.fromUsername args.fromPassword
      rw [hF] at hphF
      have hphT := openPasswordDb_events_phase w env queryInfo "to" toName
        args.toUsername args.toPassword
      rw [hT] at hphT
      rcases List.mem_append.mp hh with hh | hh
      · rcases List.mem_append.mp hh with hh | hh
        · have := hphF _ hh
          simp [eventPhase] at this
        · have := hphT _ hh
          simp [eventPhase] at this
      · rcases List.mem_cons.mp hh with hh | hh
        · exact Event.noConfusion hh
        · simp only [List.mem_singleton] at hh
          exact Event.noConfusion hh

/-- Shared shape argument: in a trace consisting of one build event
followed by build-free events whose `openDb` entries all carry the
built configuration, the three identity properties of the query
configuration hold. -/
theorem trace_shape_props (queryInfo : PwsQueryInfo) (tail : List Event)
    (hnb : ∀ e ∈ tail, isBuildQueryInfoEvent e = false)
    (hqi : ∀ p qi n, Event.openDb p qi n ∈ tail → qi = queryInfo) :
    (∀ p1 qi1 n1 p2 qi2 n2,
        Event.openDb p1 qi1 n1 ∈ Event.buildQueryInfo queryInfo :: tail →
        Event.openDb p2 qi2 n2 ∈ Event.buildQueryInfo queryInfo :: tail →
        qi1 = qi2) ∧
    (∀ p qi n, Event.openDb p qi n ∈ Event.buildQueryInfo queryInfo :: tail →
        Event.buildQueryInfo qi ∈ Event.buildQueryInfo queryInfo :: tail) ∧
    List.countP isBuildQueryInfoEvent (Event.buildQueryInfo queryInfo :: tail) ≤ 1 := by
  have hmem : ∀ p qi n,
      Event.openDb p qi n ∈ Event.buildQueryInfo queryInfo :: tail → qi = queryInfo := by
    intro p qi n h
    rcases List.mem_cons.mp h with h | h
    · exact Event.noConfusion h
    · exact hqi p qi n h
  refine ⟨?_, ?_, ?_⟩
  · intro p1 qi1 n1 p2 qi2 n2 h1 h2
    rw [hmem p1 qi1 n1 h1, hmem p2 qi2 n2 h2]
  · intro p qi n h
    rw [hmem p qi n h]
    exact List.mem_cons_self _ _
  · rw [List.countP_cons]
    have hz : List.countP isBuildQueryInfoEvent tail = 0 := by
      rw [List.countP_eq_zero]
      intro e he
      simp [hnb e he]
    simp [hz, isBuildQueryInfoEvent]

/-- Query configuration produced by the sample runs. -/
def sampleQueryInfo : PwsQueryInfo := ⟨["folder", "title"], ":", true⟩

/-- Parsed namespace of `sampleCmd` in `sampleEnv`. -/
def sampleArgs : Args :=
  ⟨some "bw", some "bitwarden", true, "folder,title", ":", false, true,
    none, none, none, none, false⟩

/-- C1: a run whose `--id` value yields an empty or invalid identity
field-name list hits a `ConfigurationError` that is fatal before any
dataset load: when both required store options are present but the field
list obtained by splitting the `--id` value on commas is invalid, `main`
terminates with the configuration error and its trace is empty — in
particular neither password database was opened. -/
theorem C1_config_error_fatal_before_load (w : World) (cmd : CmdLine) (env : Env)
    (hfrom : cmd.fromOpt.isSome = true) (hto : cmd.toOpt.isSome = true)
    (hbad : validIdFieldList (pySplit (cmd.idOpt.getD "folder,title") ',') = false) :
    (main w cmd env).2 = RunResult.configurationError ∧ (main w cmd env).1 = [] := by
  obtain ⟨f, hf⟩ := Option.isSome_iff_exists.mp hfrom
  obtain ⟨t, ht⟩ := Option.isSome_iff_exists.mp hto
  constructor <;>
    simp [main, parseCommandLine, hf, ht, storeNameFallback, mkPwsQueryInfo, hbad]

/-- Witness for C1: the concrete run `--from bw --to bitwarden --id ""`
is rejected as a configuration error with an empty trace. -/
theorem C1_witness :
    sampleCmdBadId.fromOpt.isSome = true ∧ sampleCmdBadId.toOpt.isSome = true ∧
    validIdFieldList (pySplit (sampleCmdBadId.idOpt.getD "folder,title") ',') = false ∧
    ((main sampleWorld sampleCmdBadId sampleEnv).2 = RunResult.configurationError ∧
      (main sampleWorld sampleCmdBadId sampleEnv).1 = []) :=
  ⟨by decide, by decide, by decide,
    C1_config_error_fatal_before_load sampleWorld sampleCmdBadId sampleEnv
      (by decide) (by decide) (by decide)⟩

/-- C2: the query configuration is created exactly once at startup and
the identical value is applied to both datasets: in every run, all
`_open_password_db` calls in the trace carry the same query
configuration, that configuration is the one recorded as built, at most
one build event ever occurs, and the trace is phase-monotone (so the
build precedes every dataset open). -/
theorem C2_query_info_once_and_shared (w : World) (cmd : CmdLine) (env : Env) :
    (∀ p1 qi1 n1 p2 qi2 n2,
        Event.openDb p1 qi1 n1 ∈ (main w cmd env).1 →
        Event.openDb p2 qi2 n2 ∈ (main w cmd env).1 → qi1 = qi2) ∧
    (∀ p qi n, Event.openDb p qi n ∈ (main w cmd env).1 →
        Event.buildQueryInfo qi ∈ (main w cmd env).1) ∧
    List.countP isBuildQueryInfoEvent (main w cmd env).1 ≤ 1 ∧
    List.Pairwise (fun a b => eventPhase a ≤ eventPhase b) (main w cmd env).1 := by
  have hpair := main_phase_monotone w cmd env
  rcases main_cases w cmd env with ⟨-, hm, -⟩ | ⟨args, e', hp, hmk, hm, -⟩ |
    ⟨args, queryInfo, fromName, nf, fromEvs, hp, hmk, hfrom, hF, hm, -⟩ |
    ⟨args, queryInfo, fromName, toName, dsF, nf, fromEvs, toEvs, hp, hmk, hfrom, hto, hF, hT, hm, -⟩ |
    ⟨args, queryInfo, fromName, toName, dsF, dsT, fromEvs, toEvs, hp, hmk, hfrom, hto, hF, hT, hm, -⟩ <;>
    rw [hm] at hpair ⊢
  · exact ⟨by simp, by simp, by simp, hpair⟩
  · exact ⟨by simp, by simp, by simp, hpair⟩
  · have hph := openPasswordDb_events_phase w env queryInfo "from" fromName
      args.fromUsername args.fromPassword
    have hinv := openPasswordDb_openDb_inv w env queryInfo "from" fromName
      args.fromUsername args.fromPassword
    rw [hF] at hph hinv
    obtain ⟨c1, c2, c3⟩ := trace_shape_props queryInfo fromEvs
      (fun e he => phase_two_not_build (hph e he))
      (fun p qi n h => (hinv p qi n h).2.1)
    exact ⟨c1, c2, c3, hpair⟩
  · have hphF := openPasswordDb_events_phase w env queryInfo "from" fromName
      args.fromUsername args.fromPassword
    have hinvF := openPasswordDb_openDb_inv w env queryInfo "from" fromName
      args.fromUsername args.fromPassword
    rw [hF] at hphF hinvF
    have hphT := openPasswordDb_events_phase w env queryInfo "to" toName
      args.toUsername args.toPassword
    have hinvT := openPasswordDb_openDb_inv w env queryInfo "to" toName
      args.toUsername args.toPassword
    rw [hT] at hphT hinvT
    obtain ⟨c1, c2, c3⟩ := trace_shape_props queryInfo (fromEvs ++ toEvs)
      (fun e he => by
        rcases List.mem_append.mp he with h | h
        · exact phase_two_not_build (hphF e h)
        · exact phase_two_not_build (hphT e h))
      (fun p qi n h => by
        rcases List.mem_append.mp h with h | h
        · exact (hinvF p qi n h).2.1
        · exact (hinvT p qi n h).2.1)
    exact ⟨c1, c2, c3, hpair⟩
  · have hphF := openPasswordDb_events_phase w env queryInfo "from" fromName
      args.fromUsername args.fromPassword
    have hinvF := openPasswordDb_openDb_inv w env queryInfo "from" fromName
      args.fromUsername args.fromPassword
    rw [hF] at hphF hinvF
    have hphT := openPasswordDb_events_phase w env queryInfo "to" toName
      args.toUsername args.toPassword
    have hinvT := openPasswordDb_openDb_inv w env queryInfo "to" toName
      args.toUsername args.toPassword
    rw [hT] at hphT hinvT
    obtain ⟨c1, c2, c3⟩ := trace_shape_props queryInfo
      (fromEvs ++ toEvs ++
        [.syncRun,
         .applyDriver (if args.gui then .gui else .console) queryInfo args.dryRun])
      (fun e he => by
        rcases List.mem_append.mp he with h | h
        · rcases List.mem_append.mp h with h | h
          · exact phase_two_not_build (hphF e h)
          · exact phase_two_not_build (hphT e h)
        · rcases List.mem_cons.mp h with rfl | h
          · rfl
          · simp only [List.mem_singleton] at h
            subst h
            rfl)
      (fun p qi n h => by
        rcases List.mem_append.mp h with h | h
        · rcases List.mem_append.mp h with h | h
          · exact (hinvF p qi n h).2.1
          · exact (hinvT p qi n h).2.1
        · rcases List.mem_cons.mp h with h | h
          · exact Event.noConfusion h
          · simp only [List.mem_singleton] at h
            exact Event.noConfusion h)
    exact ⟨c1, c2, c3, hpair⟩

/-- Witness for C2: in the sample completed run both dataset opens carry
the very query configuration that was recorded as built. -/
theorem C2_witness :
    Event.openDb "from" sampleQueryInfo "bw" ∈ (main sampleWorld sampleCmd sampleEnv).1 ∧
    Event.openDb "to" sampleQueryInfo "bitwarden" ∈ (main sampleWorld sampleCmd sampleEnv).1 ∧
    sampleQueryInfo = sampleQueryInfo ∧
    Event.buildQueryInfo sampleQueryInfo ∈ (main sampleWorld sampleCmd sampleEnv).1 :=
  ⟨by decide, by decide,
    (C2_query_info_once_and_shared sampleWorld sampleCmd sampleEnv).1
      "from" sampleQueryInfo "bw" "to" sampleQueryInfo "bitwarden"
      (by decide) (by decide),
    (C2_query_info_once_and_shared sampleWorld sampleCmd sampleEnv).2.1
      "from" sampleQueryInfo "bw" (by decide)⟩

/-- C3: execution follows the specified data-flow order: in every run
that completes, the trace is exactly the query-configuration build,
followed by the `from` adapter's instantiation events, then the `to`
adapter's, then the sync step, and only then the apply driver — chosen
by `--gui` and invoked with the dry-run flag. -/
theorem C3_data_flow_order (w : World) (cmd : CmdLine) (env : Env)
    (h : (main w cmd env).2 = RunResult.completed) :
    ∃ queryInfo fromEvs toEvs,
      (main w cmd env).1 =
        Event.buildQueryInfo queryInfo :: (fromEvs ++ toEvs ++
          [Event.syncRun,
           Event.applyDriver (if cmd.gui then Driver.gui else Driver.console)
             queryInfo cmd.dryRun]) ∧
      adapterEventsFor queryInfo "from" fromEvs ∧
      adapterEventsFor queryInfo "to" toEvs := by
  rcases main_cases w cmd env with ⟨-, hm, hr⟩ | ⟨args, e', hp, hmk, hm, hr⟩ |
    ⟨args, queryInfo, fromName, nf, fromEvs, hp, hmk, hfrom, hF, hm, hr⟩ |
    ⟨args, queryInfo, fromName, toName, dsF, nf, fromEvs, toEvs, hp, hmk, hfrom, hto, hF, hT, hm, hr⟩ |
    ⟨args, queryInfo, fromName, toName, dsF, dsT, fromEvs, toEvs, hp, hmk, hfrom, hto, hF, hT, hm, hr⟩
  · rw [hr] at h
    exact RunResult.noConfusion h
  · rw [hr] at h
    exact RunResult.noConfusion h
  · rw [hr] at h
    exact RunResult.noConfusion h
  · rw [hr] at h
    exact RunResult.noConfusion h
  · obtain ⟨f, t, hf, ht, -, hargs⟩ := parseCommandLine_some hp
    have hgui : args.gui = cmd.gui := by rw [hargs]
    have hdr : args.dryRun = cmd.dryRun := by rw [hargs]
    refine ⟨queryInfo, fromEvs, toEvs, ?_,
      openPasswordDb_ok_adapterEvents w env queryInfo "from" fromName
        args.fromUsername args.fromPassword dsF fromEvs hF,
      openPasswordDb_ok_adapterEvents w env queryInfo "to" toName
        args.toUsername args.toPassword dsT toEvs hT⟩
    rw [hm, hgui, hdr]

/-- Witness for C3 at the sample completed run. -/
theorem C3_witness :
    (main sampleWorld sampleCmd sampleEnv).2 = RunResult.completed ∧
    (∃ queryInfo fromEvs toEvs,
      (main sampleWorld sampleCmd sampleEnv).1 =
        Event.buildQueryInfo queryInfo :: (fromEvs ++ toEvs ++
          [Event.syncRun,
           Event.applyDriver (if sampleCmd.gui then Driver.gui else Driver.console)
             queryInfo sampleCmd.dryRun]) ∧
      adapterEventsFor queryInfo "from" fromEvs ∧
      adapterEventsFor queryInfo "to" toEvs) :=
  ⟨by decide, C3_data_flow_order sampleWorld sampleCmd sampleEnv (by decide)⟩

/-- C4: a structural failure aborts the run before any writes: whenever
opening either password database raises `PwsNotFound`, `main` terminates
by that exception with a trace that never reaches the sync step, and no
apply driver — the only gateway to writes against the destination — is
ever invoked. -/
theorem C4_not_found_aborts_before_writes (w : World) (cmd : CmdLine) (env : Env)
    (name : String) (h : (main w cmd env).2 = RunResult.notFound name) :
    (∀ d qi dr, Event.applyDriver d qi dr ∉ (main w cmd env).1) ∧
    Event.syncRun ∉ (main w cmd env).1 := by
  have hle := main_notFound_phase_le_two w cmd env name h
  constructor
  · intro d qi dr hmem
    have := hle _ hmem
    simp [eventPhase] at this
  · intro hmem
    have := hle _ hmem
    simp [eventPhase] at this

/-- Witness for C4: the sample run whose `--from` names a missing
Keepass file fails with `PwsNotFound` and neither syncs nor invokes an
apply driver. -/
theorem C4_witness :
    (main sampleWorld sampleCmdKeepass sampleEnv).2 = RunResult.notFound "store.kdbx" ∧
    Event.applyDriver Driver.console sampleQueryInfo false
        ∉ (main sampleWorld sampleCmdKeepass sampleEnv).1 ∧
    Event.syncRun ∉ (main sampleWorld sampleCmdKeepass sampleEnv).1 :=
  ⟨by decide,
    (C4_not_found_aborts_before_writes sampleWorld sampleCmdKeepass sampleEnv
        "store.kdbx" (by decide)).1 Driver.console sampleQueryInfo false,
    (C4_not_found_aborts_before_writes sampleWorld sampleCmdKeepass sampleEnv
        "store.kdbx" (by decide)).2⟩

/-- C5: the flagged-only filter policy is configuration-driven and
derived from `--sync-all`: after parsing, `args.sync` is true exactly
when `--sync-all` was not given, and the third argument of every query
configuration built by `main` equals `args.sync`. -/
theorem C5_flagged_only_from_sync_all (w : World) (cmd : CmdLine) (env : Env)
    (args : Args) (evs : List Event)
    (hp : parseCommandLine cmd env = some (args, evs)) :
    args.sync = !cmd.syncAll ∧
    ∀ qi, Event.buildQueryInfo qi ∈ (main w cmd env).1 → qi.sync = args.sync := by
  obtain ⟨f, t, hf, ht, hevs, hargs⟩ := parseCommandLine_some hp
  have hsync : args.sync = !cmd.syncAll := by rw [hargs]
  refine ⟨hsync, ?_⟩
  intro qi hmem
  obtain ⟨args', hp', hmk⟩ := main_build_inv w cmd env qi hmem
  rw [hp] at hp'
  injection hp' with hpq
  rw [Prod.mk.injEq] at hpq
  obtain ⟨rfl, -⟩ := hpq
  have hqi := mkPwsQueryInfo_ok hmk
  rw [hqi]

/-- Witness for C5: the sample run was parsed without `--sync-all`, so
its query configuration keeps the flagged-only policy on. -/
theorem C5_witness :
    parseCommandLine sampleCmd sampleEnv = some (sampleArgs, []) ∧
    sampleArgs.sync = !sampleCmd.syncAll ∧
    Event.buildQueryInfo sampleQueryInfo ∈ (main sampleWorld sampleCmd sampleEnv).1 ∧
    sampleQueryInfo.sync = sampleArgs.sync :=
  ⟨by decide,
    (C5_flagged_only_from_sync_all sampleWorld sampleCmd sampleEnv sampleArgs []
      (by decide)).1,
    by decide,
    (C5_flagged_only_from_sync_all sampleWorld sampleCmd sampleEnv sampleArgs []
      (by decide)).2 sampleQueryInfo (by decide)⟩

/-- C6: without `--id` the identity key fields default to the ordered
list `folder`, `title`: the parsed `--id` value is the default string
`"folder,title"`, splitting it on commas yields `["folder", "title"]`,
and every query configuration built by `main` carries exactly that field
list. -/
theorem C6_default_id_field_list (w : World) (cmd : CmdLine) (env : Env)
    (args : Args) (evs : List Event)
    (hid : cmd.idOpt = none)
    (hp : parseCommandLine cmd env = some (args, evs)) :
    args.id = "folder,title" ∧
    pySplit args.id ',' = ["folder", "title"] ∧
    ∀ qi, Event.buildQueryInfo qi ∈ (main w cmd env).1 →
      qi.ids = ["folder", "title"] := by
  obtain ⟨f, t, hf, ht, hevs, hargs⟩ := parseCommandLine_some hp
  have hidv : args.id = "folder,title" := by
    rw [hargs]
    simp [hid]
  have hsplit : pySplit args.id ',' = ["folder", "title"] := by
    rw [hidv]
    decide
  refine ⟨hidv, hsplit, ?_⟩
  intro qi hmem
  obtain ⟨args', hp', hmk⟩ := main_build_inv w cmd env qi hmem
  rw [hp] at hp'
  injection hp' with hpq
  rw [Prod.mk.injEq] at hpq
  obtain ⟨rfl, -⟩ := hpq
  have hqi := mkPwsQueryInfo_ok hmk
  rw [hqi]
  exact hsplit

/-- Witness for C6: the sample run gives no `--id`, and its query
configuration carries the default field list. -/
theorem C6_witness :
    sampleCmd.idOpt = none ∧
    parseCommandLine sampleCmd sampleEnv = some (sampleArgs, []) ∧
    sampleArgs.id = "folder,title" ∧
    pySplit sampleArgs.id ',' = ["folder", "title"] ∧
    Event.buildQueryInfo sampleQueryInfo ∈ (main sampleWorld sampleCmd sampleEnv).1 ∧
    sampleQueryInfo.ids = ["folder", "title"] :=
  ⟨by decide, by decide,
    (C6_default_id_field_list sampleWorld sampleCmd sampleEnv sampleArgs []
      (by decide) (by decide)).1,
    (C6_default_id_field_list sampleWorld sampleCmd sampleEnv sampleArgs []
      (by decide) (by decide)).2.1,
    by decide,
    (C6_default_id_field_list sampleWorld sampleCmd sampleEnv sampleArgs []
      (by decide) (by decide)).2.2 sampleQueryInfo (by decide)⟩

/-- C7: password prompting stays in the bootstrap layer and the Keepass
client receives a resolved secret: `_create_keepass_dataset` always
constructs the `KeepassDatabaseClient` with a non-`None` password — the
resolved option value when one was supplied, otherwise the value
obtained by prompting with `getpass` before the client is constructed
(and no prompt happens when a password was supplied). -/
theorem C7_keepass_password_resolved (w : World) (name : String)
    (password : Option String) (queryInfo : PwsQueryInfo) :
    (createKeepassDataset w name password queryInfo).1.client =
        PwsClient.keepass ⟨name, some (password.getD (w.getpass name))⟩ ∧
    (password = none →
      (createKeepassDataset w name password queryInfo).2 =
        [Event.promptPassword name, Event.createDataset name queryInfo]) ∧
    (∀ pw, password = some pw →
      (createKeepassDataset w name password queryInfo).2 =
        [Event.createDataset name queryInfo]) := by
  cases password <;> simp [createKeepassDataset]

/-- Witness for C7: with no resolved password, the sample Keepass
dataset is built from the prompted secret, prompted before the client
construction. -/
theorem C7_witness :
    (createKeepassDataset sampleWorld "store.kdbx" none sampleQueryInfo).1.client =
        PwsClient.keepass ⟨"store.kdbx", some "secret"⟩ ∧
    (createKeepassDataset sampleWorld "store.kdbx" none sampleQueryInfo).2 =
        [Event.promptPassword "store.kdbx",
         Event.createDataset "store.kdbx" sampleQueryInfo] :=
  ⟨(C7_keepass_password_resolved sampleWorld "store.kdbx" none sampleQueryInfo).1,
    (C7_keepass_password_resolved sampleWorld "store.kdbx" none sampleQueryInfo).2.1 rfl⟩

/-- C8: backend selection gives the Bitwarden keyword precedence over
the filesystem: a store name that case-insensitively equals `bitwarden`
or `bw` selects the Bitwarden client regardless of whether a file of
that name exists; any other name selects the Keepass client exactly when
the path exists; otherwise `_open_password_db` raises `PwsNotFound` with
the name. -/
theorem C8_backend_selection (w : World) (env : Env) (queryInfo : PwsQueryInfo)
    (position name : String) (username password : Option String) :
    (pyLower name = "bitwarden" ∨ pyLower name = "bw" →
      ∃ client, (openPasswordDb w env queryInfo position name username password).1 =
        Except.ok ⟨position ++ pyLower name, queryInfo, PwsClient.bitwarden client⟩) ∧
    (¬(pyLower name = "bitwarden" ∨ pyLower name = "bw") → w.fileExists name = true →
      ∃ kpClient, (openPasswordDb w env queryInfo position name username password).1 =
        Except.ok ⟨name, queryInfo, PwsClient.keepass kpClient⟩) ∧
    (¬(pyLower name = "bitwarden" ∨ pyLower name = "bw") → w.fileExists name = false →
      (openPasswordDb w env queryInfo position name username password).1 =
        Except.error ⟨name⟩) := by
  refine ⟨fun hbw => ?_, fun hbw hex => ?_, fun hbw hex => ?_⟩
  · exact ⟨⟨env.bwSession, username, password, queryInfo.ids⟩,
      by simp [openPasswordDb, hbw, createBitwardenDataset]⟩
  · cases password with
    | none =>
      exact ⟨⟨name, some (w.getpass name)⟩,
        by simp [openPasswordDb, hbw, hex, createKeepassDataset]⟩
    | some pw =>
      exact ⟨⟨name, some pw⟩,
        by simp [openPasswordDb, hbw, hex, createKeepassDataset]⟩
  · simp [openPasswordDb, hbw, hex]

/-- Witness for C8: `BW` selects Bitwarden even though a file of that
name exists; a non-keyword name selects Keepass when its path exists and
raises `PwsNotFound` when it does not. -/
theorem C8_witness :
    (∃ client,
      (openPasswordDb sampleWorldAllFiles sampleEnv sampleQueryInfo "from" "BW"
          none none).1 =
        Except.ok ⟨"from" ++ pyLower "BW", sampleQueryInfo, PwsClient.bitwarden client⟩) ∧
    (∃ kpClient,
      (openPasswordDb sampleWorldAllFiles sampleEnv sampleQueryInfo "to" "store.kdbx"
          none none).1 =
        Except.ok ⟨"store.kdbx", sampleQueryInfo, PwsClient.keepass kpClient⟩) ∧
    (openPasswordDb sampleWorld sampleEnv sampleQueryInfo "to" "store.kdbx"
        none none).1 =
      Except.error ⟨"store.kdbx"⟩ :=
  ⟨(C8_backend_selection sampleWorldAllFiles sampleEnv sampleQueryInfo "from" "BW"
      none none).1 (by decide),
   (C8_backend_selection sampleWorldAllFiles sampleEnv sampleQueryInfo "to" "store.kdbx"
      none none).2.1 (by decide) rfl,
   (C8_backend_selection sampleWorld sampleEnv sampleQueryInfo "to" "store.kdbx"
      none none).2.2 (by decide) rfl⟩

/-- C9: for each of the four credentials, the command-line option takes
precedence over the environment: after parsing, each credential equals
the option's value when the option was given, and the corresponding
environment variable is consulted only when the option is absent. -/
theorem C9_credential_option_precedence (cmd : CmdLine) (env : Env)
    (args : Args) (evs : List Event)
    (hp : parseCommandLine cmd env = some (args, evs)) :
    (∀ v, cmd.fromUsernameOpt = some v → args.fromUsername = some v) ∧
    (cmd.fromUsernameOpt = none → args.fromUsername = env.pwsFromUsername) ∧
    (∀ v, cmd.fromPasswordOpt = some v → args.fromPassword = some v) ∧
    (cmd.fromPasswordOpt = none → args.fromPassword = env.pwsFromPassword) ∧
    (∀ v, cmd.toUsernameOpt = some v → args.toUsername = some v) ∧
    (cmd.toUsernameOpt = none → args.toUsername = env.pwsToUsername) ∧
    (∀ v, cmd.toPasswordOpt = some v → args.toPassword = some v) ∧
    (cmd.toPasswordOpt = none → args.toPassword = env.pwsToPassword) := by
  obtain ⟨f, t, hf, ht, hevs, hargs⟩ := parseCommandLine_some hp
  subst hargs
  refine ⟨?_, ?_, ?_, ?_, ?_, ?_, ?_, ?_⟩ <;>
    first
      | (intro v hv
         simp [credResolve, hv])
      | (intro hv
         simp [credResolve, hv])

/-- Command line exercising the credential precedence: two credentials
given as options, two left to the environment. -/
def sampleCmdCreds : CmdLine :=
  ⟨some "bw", some "bw", false, none, none, false,
    some "alice", none, none, some "topt", false⟩

/-- Environment supplying all four credential variables. -/
def sampleEnvCreds : Env :=
  ⟨none, none, some "envFU", some "envFP", some "envTU", some "envTP", none⟩

/-- Parsed namespace of `sampleCmdCreds` in `sampleEnvCreds`. -/
def sampleArgsCreds : Args :=
  ⟨some "bw", some "bw", false, "folder,title", ":", false, true,
    some "alice", some "envFP", some "envTU", some "topt", false⟩

/-- Witness for C9: given options win, absent options fall back to the
environment, for both username and password on both sides. -/
theorem C9_witness :
    parseCommandLine sampleCmdCreds sampleEnvCreds = some (sampleArgsCreds, []) ∧
    sampleArgsCreds.fromUsername = some "alice" ∧
    sampleArgsCreds.fromPassword = sampleEnvCreds.pwsFromPassword ∧
    sampleArgsCreds.toUsername = sampleEnvCreds.pwsToUsername ∧
    sampleArgsCreds.toPassword = some "topt" :=
  have h := C9_credential_option_precedence sampleCmdCreds sampleEnvCreds
    sampleArgsCreds [] (by decide)
  ⟨by decide, h.1 "alice" rfl, h.2.2.2.1 rfl, h.2.2.2.2.2.1 rfl,
    h.2.2.2.2.2.2.1 "topt" rfl⟩

/-- C10: the environment-variable fallback for the store names is
unreachable: after any successful parse the `from` and `to` values are
exactly the required command-line options (never `None`), the fallback
reads of `PWS_FROM`/`PWS_TO` produced no event, and no run's trace ever
holds such a read. -/
theorem C10_store_env_fallback_unreachable (w : World) (cmd : CmdLine) (env : Env)
    (args : Args) (evs : List Event)
    (hp : parseCommandLine cmd env = some (args, evs)) :
    args.«from» = cmd.fromOpt ∧ args.«to» = cmd.toOpt ∧
    args.«from».isSome = true ∧ args.«to».isSome = true ∧
    evs = [] ∧
    (∀ varName, Event.readStoreEnvVar varName ∉ (main w cmd env).1) := by
  obtain ⟨f, t, hf, ht, hevs, hargs⟩ := parseCommandLine_some hp
  subst hargs
  subst hevs
  refine ⟨by simp [hf], by simp [ht], by simp, by simp, rfl, ?_⟩
  intro varName hmem
  have := main_trace_phase_ge_one w cmd env _ hmem
  simp [eventPhase] at this

/-- Witness for C10 at the sample run: the parsed store names are the
command-line values and no environment fallback read appears. -/
theorem C10_witness :
    parseCommandLine sampleCmd sampleEnv = some (sampleArgs, []) ∧
    sampleArgs.«from» = sampleCmd.fromOpt ∧
    sampleArgs.«to» = sampleCmd.toOpt ∧
    sampleArgs.«from».isSome = true ∧
    sampleArgs.«to».isSome = true ∧
    Event.readStoreEnvVar "PWS_FROM" ∉ (main sampleWorld sampleCmd sampleEnv).1 :=
  have h := C10_store_env_fallback_unreachable sampleWorld sampleCmd sampleEnv
    sampleArgs [] (by decide)
  ⟨by decide, h.1, h.2.1, h.2.2.1, h.2.2.2.1, h.2.2.2.2.2 "PWS_FROM"⟩

end Pwsync
